import Mathlib

/-!
Shallow embedding of the AICodeReviewer backend (src/server.js) and proofs
about its upload gate, resilient Gemini API client, analyze pipeline and
report store handlers.
-/

namespace AICodeReviewer

/-! ### Resilient API client (src/server.js, `callGeminiApi`, lines 67-104)

One attempt of the retry loop observes the outcome of a single `fetch`:
either an HTTP-success response whose body optionally carries the generated
text at `candidates[0].content.parts[0].text`, or a non-success HTTP status,
or a network-level fault (the `fetch` promise rejecting). -/

inductive AttemptOutcome where
  | httpSuccess (text : Option String)
  | httpError (status : Nat) (message : String)
  | networkError (message : String)
deriving DecidableEq, Repr

/-- The distinct failures `callGeminiApi` can raise, one per `throw` site:
`missingApiKey` for line 68, `emptyResponse` for line 84, `apiError` for
line 94, `network` for a rethrown fetch rejection (line 98), and
`exhausted` for the fall-through after the loop (line 103). -/
inductive GeminiError where
  | missingApiKey
  | emptyResponse
  | apiError (status : Nat) (message : String)
  | network (message : String)
  | exhausted
deriving DecidableEq, Repr

deriving instance DecidableEq for Except

/-- Observable behaviour of one call: the returned text or raised error,
how many fetch attempts were performed, and the summed `setTimeout` delays
in milliseconds. -/
structure CallResult where
  result : Except GeminiError String
  attempts : Nat
  totalDelayMs : Nat
deriving DecidableEq, Repr

def MAX_RETRIES : Nat := 5

/-- The body of the `for (let i = 0; i < MAX_RETRIES; i++)` loop, with
`fuel` counting the remaining iterations (`fuel + i = MAX_RETRIES` at every
call from `callGeminiApi`).  Faithful to the JavaScript control flow: the
`throw` statements for a terminal HTTP status (line 94) and for an
empty/absent generated-text field (line 84) sit inside the `try` block, so
they are intercepted by the `catch` (lines 96-101), which rethrows only on
the last iteration and otherwise sleeps `2^i * 1000` ms and retries. -/
def runAttempts (ep : Nat → AttemptOutcome) : Nat → Nat → Nat → Nat → CallResult
  | 0, _, attempts, delay => { result := .error .exhausted, attempts := attempts, totalDelayMs := delay }
  | fuel + 1, i, attempts, delay =>
    match ep i with
    | .httpSuccess text =>
      match text with
      | some t =>
        if t = "" then
          if i = MAX_RETRIES - 1 then
            { result := .error .emptyResponse, attempts := attempts + 1, totalDelayMs := delay }
          else
            runAttempts ep fuel (i + 1) (attempts + 1) (delay + 2 ^ i * 1000)
        else
          { result := .ok t, attempts := attempts + 1, totalDelayMs := delay }
      | none =>
        if i = MAX_RETRIES - 1 then
          { result := .error .emptyResponse, attempts := attempts + 1, totalDelayMs := delay }
        else
          runAttempts ep fuel (i + 1) (attempts + 1) (delay + 2 ^ i * 1000)
    | .httpError status msg =>
      if 500 ≤ status ∧ i < MAX_RETRIES - 1 then
        runAttempts ep fuel (i + 1) (attempts + 1) (delay + 2 ^ i * 1000)
      else
        if i = MAX_RETRIES - 1 then
          { result := .error (.apiError status msg), attempts := attempts + 1, totalDelayMs := delay }
        else
          runAttempts ep fuel (i + 1) (attempts + 1) (delay + 2 ^ i * 1000)
    | .networkError msg =>
      if i = MAX_RETRIES - 1 then
        { result := .error (.network msg), attempts := attempts + 1, totalDelayMs := delay }
      else
        runAttempts ep fuel (i + 1) (attempts + 1) (delay + 2 ^ i * 1000)

/-- `callGeminiApi` (lines 67-104): `if (!GEMINI_API_KEY) throw` models the
JavaScript falsiness check, so an unset variable (`none`) and an empty
string both fail with `missingApiKey` before any fetch; otherwise the retry
loop runs with `MAX_RETRIES` iterations of fuel. -/
def callGeminiApi (apiKey : Option String) (ep : Nat → AttemptOutcome) : CallResult :=
  match apiKey with
  | none => { result := .error .missingApiKey, attempts := 0, totalDelayMs := 0 }
  | some k =>
    if k = "" then { result := .error .missingApiKey, attempts := 0, totalDelayMs := 0 }
    else runAttempts ep MAX_RETRIES 0 0 0

/-- An attempt outcome the spec classifies as retryable: a network-level
fault or a server-side status of at least 500. -/
def retryableOutcome : AttemptOutcome → Bool
  | .httpError status _ => 500 ≤ status
  | .networkError _ => true
  | .httpSuccess _ => false

/-! ### Upload gate (src/server.js, `upload` multer configuration, lines 25-57) -/

/-- The MIME allow-list of the `fileFilter` (lines 33-41). -/
def allowedMimeTypes : List String :=
  [ "text/plain", "text/javascript", "application/javascript", "text/x-python",
    "application/json", "text/html", "text/css", "text/x-java-source", "text/markdown",
    "text/x-c++src", "text/x-csrc", "text/x-csharp", "text/x-go", "text/x-ruby",
    "application/x-httpd-php", "text/x-swift", "text/x-kotlin", "text/rust",
    "application/xml", "text/xml", "application/x-yaml", "text/yaml",
    "application/x-sh", "application/typescript", "text/jsx", "text/tsx",
    "application/octet-stream" ]

/-- The extension allow-list of the `fileFilter` (lines 43-47). -/
def allowedExtensions : List String :=
  [ ".txt", ".js", ".py", ".json", ".html", ".css", ".java", ".md",
    ".cpp", ".c", ".cs", ".go", ".rb", ".php", ".swift", ".kt", ".rs",
    ".xml", ".yaml", ".sh", ".ts", ".jsx", ".tsx" ]

/-- Node's `path.extname`: the substring of the basename (the part after
the last slash) from its last dot to the end; empty when the basename has
no dot or only a leading dot. -/
def extname (name : String) : String :=
  let rbase := name.toList.reverse.takeWhile (fun c => c ≠ '/')
  match rbase.dropWhile (fun c => c ≠ '.') with
  | [] => ""
  | _ :: before =>
    if before.isEmpty then ""
    else String.mk ('.' :: (rbase.takeWhile (fun c => c ≠ '.')).reverse)

/-- JavaScript's `toLowerCase` restricted to ASCII, which is all the
extension allow-list needs: letters A-Z map to a-z, everything else is
unchanged. -/
def lowerChar (c : Char) : Char :=
  if 'A' ≤ c ∧ c ≤ 'Z' then Char.ofNat (c.toNat + 32) else c

def toLowerCase (s : String) : String := String.mk (s.toList.map lowerChar)

def invalidTypeMsg : String := "Invalid file type. Only code and text files are allowed."

/-- The `fileFilter` callback (lines 30-56): accept when the declared MIME
type is allow-listed or the lowercased filename extension is; otherwise the
filter reports the invalid-type error. -/
def fileFilter (mimetype originalname : String) : Except String Bool :=
  if mimetype ∈ allowedMimeTypes ∨ toLowerCase (extname originalname) ∈ allowedExtensions then
    .ok true
  else
    .error invalidTypeMsg

/-- `limits.fileSize` (line 28). -/
def MAX_FILE_SIZE : Nat := 5 * 1024 * 1024

inductive UploadError where
  | invalidFileType (msg : String)
  | fileTooLarge
deriving DecidableEq, Repr

/-- The upload gate as a whole.  The two allow-lists and the filter
predicate are from `src/server.js`; the combination with the size limit is
modelled from the spec contract for multer (which is an external library):
a file larger than `limits.fileSize` is rejected as too large, an accepted
size then passes through `fileFilter`. -/
def uploadGate (mimetype originalname : String) (size : Nat) : Except UploadError Unit :=
  if MAX_FILE_SIZE < size then .error .fileTooLarge
  else
    match fileFilter mimetype originalname with
    | .ok _ => .ok ()
    | .error msg => .error (.invalidFileType msg)

/-! ### Temp artifact lifecycle (src/server.js, `deleteTempFile`, lines 59-65) -/

/-- A file-system abstraction: the set of paths that currently exist. -/
structure FsState where
  files : List String
deriving DecidableEq, Repr

/-- What one `deleteTempFile` call did: the resulting file system, whether
an exception propagated to the caller, and whether an unlink error was
logged to the console. -/
structure DeleteOutcome where
  fs : FsState
  thrown : Bool
  loggedError : Bool
deriving DecidableEq, Repr

/-- `deleteTempFile` (lines 59-65): a falsy path or a nonexistent file is a
no-op (`if (filePath && fs.existsSync(filePath))`); otherwise `fs.unlink`
runs and a failure is only logged in its callback, never rethrown.
`unlinkFails` is the environment's choice of whether the unlink errors. -/
def deleteTempFile (fs : FsState) (filePath : Option String) (unlinkFails : Bool) : DeleteOutcome :=
  match filePath with
  | none => { fs := fs, thrown := false, loggedError := false }
  | some p =>
    if p = "" then { fs := fs, thrown := false, loggedError := false }
    else if p ∈ fs.files then
      if unlinkFails then { fs := fs, thrown := false, loggedError := true }
      else { fs := { files := fs.files.filter (fun q => q ≠ p) }, thrown := false, loggedError := false }
    else { fs := fs, thrown := false, loggedError := false }

/-! ### Analyze pipeline (src/server.js, POST /api/analyze, lines 106-144) -/

/-- `req.file` as multer leaves it for the handler. -/
structure UploadedFile where
  path : String
  originalname : String
  mimetype : String
  size : Nat
deriving DecidableEq, Repr

/-- The row returned by the INSERT's `RETURNING id, filename, created_at`. -/
structure DbRow where
  id : Nat
  filename : String
  created_at : Nat
deriving DecidableEq, Repr

inductive RespBody where
  | err (msg : String)
  | review (id : Nat) (filename : String) (created_at : Nat) (prompt : String) (report : String)
deriving DecidableEq, Repr

/-- Result of the analyze handler: HTTP status, JSON body, and how many
times `deleteTempFile` was invoked by the `finally` block. -/
structure HandlerResult where
  status : Nat
  body : RespBody
  cleanupCalls : Nat
deriving DecidableEq, Repr

def genericAnalysisError : String := "An internal server error occurred during the analysis."

/-- The second POST /api/analyze handler (lines 113-144), reached after the
multer middleware succeeded.  `gemini` is the outcome of the awaited
`callGeminiApi` and `db` the outcome of the INSERT; any rejection of either
is caught at line 138 and becomes the generic 500.  The `finally` block
calls `deleteTempFile` exactly when `req.file` is set, on every path. -/
def analyzeHandler (file : Option UploadedFile) (userPrompt : Option String)
    (gemini : Except GeminiError String) (db : Except Unit DbRow) : HandlerResult :=
  let cleanup := if file.isSome then 1 else 0
  match file with
  | none => { status := 400, body := .err "A code file is required.", cleanupCalls := cleanup }
  | some _ =>
    match userPrompt with
    | none => { status := 400, body := .err "A review prompt is required.", cleanupCalls := cleanup }
    | some p =>
      if p = "" then
        { status := 400, body := .err "A review prompt is required.", cleanupCalls := cleanup }
      else
        match gemini with
        | .error _ => { status := 500, body := .err genericAnalysisError, cleanupCalls := cleanup }
        | .ok report =>
          match db with
          | .error _ => { status := 500, body := .err genericAnalysisError, cleanupCalls := cleanup }
          | .ok row =>
            { status := 201, body := .review row.id row.filename row.created_at p report,
              cleanupCalls := cleanup }

/-- A file as the client submits it to the route. -/
structure Candidate where
  originalname : String
  mimetype : String
  size : Nat
deriving DecidableEq, Repr

inductive RouteResult where
  | rejected (status : Nat) (msg : String)
  | handled (r : HandlerResult)
deriving DecidableEq, Repr

/-- The full POST /api/analyze route (lines 106-144): the multer wrapper
(lines 106-112) turns an upload-gate error into an immediate 400 — a
`MulterError` for the size limit is prefixed "File upload error: ", a
`fileFilter` error keeps its own message — and only on success does the
analysis handler run. -/
def analyzeRoute (candidate : Option Candidate) (userPrompt : Option String)
    (gemini : Except GeminiError String) (db : Except Unit DbRow) : RouteResult :=
  match candidate with
  | none => .handled (analyzeHandler none userPrompt gemini db)
  | some c =>
    match uploadGate c.mimetype c.originalname c.size with
    | .error .fileTooLarge => .rejected 400 "File upload error: File too large"
    | .error (.invalidFileType msg) => .rejected 400 msg
    | .ok _ =>
      .handled (analyzeHandler
        (some { path := "uploads/tmp", originalname := c.originalname,
                mimetype := c.mimetype, size := c.size })
        userPrompt gemini db)

/-! ### Report store (src/server.js, GET/DELETE /api/reports/:id, lines 146-178) -/

/-- A row of the `reviews` table. -/
structure ReviewRow where
  id : Nat
  filename : String
  review_prompt : String
  report : String
  created_at : Nat
deriving DecidableEq, Repr

abbrev ReviewStore := List ReviewRow

structure HttpResp where
  status : Nat
  body : Option String
deriving DecidableEq, Repr

def notFoundMsg (id : Nat) : String := "Report with ID " ++ toString id ++ " not found."

/-- `DELETE FROM reviews WHERE id = $1 RETURNING id`: the remaining rows
and the `rowCount`. -/
def dbDeleteReviews (store : ReviewStore) (id : Nat) : ReviewStore × Nat :=
  (store.filter (fun r => r.id ≠ id), (store.filter (fun r => r.id = id)).length)

/-- DELETE /api/reports/:id (lines 168-178): 404 when no row matched,
otherwise 204 with `res.status(204).end()` — an empty body. -/
def deleteReportHandler (store : ReviewStore) (id : Nat) : ReviewStore × HttpResp :=
  let res := dbDeleteReviews store id
  if res.2 = 0 then (res.1, { status := 404, body := some (notFoundMsg id) })
  else (res.1, { status := 204, body := none })

/-- GET /api/reports/:id (lines 156-166): `SELECT * FROM reviews WHERE id = $1`,
404 when no row, otherwise 200 with the first row. -/
def getReportHandler (store : ReviewStore) (id : Nat) : Nat × Option ReviewRow :=
  match store.find? (fun r => r.id = id) with
  | none => (404, none)
  | some r => (200, some r)

/-! ### Helper lemmas about the retry loop -/

/-- A retryable outcome that is not on the last iteration always leads to
one more attempt after a `2^i * 1000` ms sleep, whichever of the two code
paths (the `>= 500` branch or the catch block) performs the retry. -/
theorem runAttempts_retryable_step (ep : Nat → AttemptOutcome) (fuel i a d : Nat)
    (hr : retryableOutcome (ep i) = true) (hi : i < MAX_RETRIES - 1) :
    runAttempts ep (fuel + 1) i a d =
      runAttempts ep fuel (i + 1) (a + 1) (d + 2 ^ i * 1000) := by
  cases h : ep i with
  | httpSuccess text => simp [retryableOutcome, h] at hr
  | httpError s m =>
    have hs : 500 ≤ s := by simpa [retryableOutcome, h] using hr
    simp [runAttempts, h, hs, hi]
  | networkError m =>
    have hne : ¬ i = MAX_RETRIES - 1 := by omega
    simp [runAttempts, h, hne]

/-- The loop performs at most `fuel` further attempts. -/
theorem runAttempts_attempts_le (ep : Nat → AttemptOutcome) :
    ∀ fuel i a d, (runAttempts ep fuel i a d).attempts ≤ a + fuel := by
  intro fuel
  induction fuel with
  | zero => intro i a d; simp [runAttempts]
  | succ n ih =>
    intro i a d
    simp only [runAttempts]
    repeat' split
    all_goals
      first
        | exact le_trans (ih (i + 1) (a + 1) (d + 2 ^ i * 1000)) (by omega)
        | exact show a + 1 ≤ a + (n + 1) by omega

/-- Whenever the loop returns text, that text is non-empty: the guard
`if (!report) throw ...` rules out absent and empty reports. -/
theorem runAttempts_ok_ne_empty (ep : Nat → AttemptOutcome) :
    ∀ fuel i a d t, (runAttempts ep fuel i a d).result = .ok t → t ≠ "" := by
  intro fuel
  induction fuel with
  | zero => intro i a d t h; simp [runAttempts] at h
  | succ n ih =>
    intro i a d t h
    simp only [runAttempts] at h
    split at h
    · split at h
      · split at h
        · split at h
          · simp at h
          · exact ih _ _ _ _ h
        · rename_i hne
          simp only [Except.ok.injEq] at h
          subst h
          exact hne
      · split at h
        · simp at h
        · exact ih _ _ _ _ h
    · split at h
      · exact ih _ _ _ _ h
      · split at h
        · simp at h
        · exact ih _ _ _ _ h
    · split at h
      · simp at h
      · exact ih _ _ _ _ h

/-- Four retryable outcomes on attempt indices 0-3 walk the loop to its
last iteration, accumulating 1+2+4+8 seconds of delay. -/
theorem runAttempts_four_retries (ep : Nat → AttemptOutcome)
    (hr : ∀ i, i < MAX_RETRIES - 1 → retryableOutcome (ep i) = true) :
    runAttempts ep 5 0 0 0 = runAttempts ep 1 4 4 15000 := by
  have s0 := runAttempts_retryable_step ep 4 0 0 0
    (hr 0 (by norm_num [MAX_RETRIES])) (by norm_num [MAX_RETRIES])
  have s1 := runAttempts_retryable_step ep 3 1 1 1000
    (hr 1 (by norm_num [MAX_RETRIES])) (by norm_num [MAX_RETRIES])
  have s2 := runAttempts_retryable_step ep 2 2 2 3000
    (hr 2 (by norm_num [MAX_RETRIES])) (by norm_num [MAX_RETRIES])
  have s3 := runAttempts_retryable_step ep 1 3 3 7000
    (hr 3 (by norm_num [MAX_RETRIES])) (by norm_num [MAX_RETRIES])
  norm_num at s0 s1 s2 s3
  rw [s0, s1, s2, s3]

/-! ### Claim theorems -/

/-- C1: the claim says a terminal condition (e.g. HTTP 400) makes the call
fail immediately after that attempt with no further attempts.  The code
does not do this: the terminal `throw` at line 94 is inside the `try`, so
the `catch` at line 96 retries it.  Evaluating the embedded client on an
endpoint that always answers 400 shows all 5 attempts are performed, with
the full 15 s of backoff, before the status-carrying error is raised. -/
theorem c1_terminal_status_is_retried :
    (callGeminiApi (some "key") (fun _ => .httpError 400 "Bad Request") =
      { result := .error (.apiError 400 "Bad Request"), attempts := 5, totalDelayMs := 15000 }) ∧
    (callGeminiApi (some "key") (fun _ => .httpSuccess (some "")) =
      { result := .error .emptyResponse, attempts := 5, totalDelayMs := 15000 }) ∧
    (callGeminiApi (some "key") (fun _ => .httpSuccess none) =
      { result := .error .emptyResponse, attempts := 5, totalDelayMs := 15000 }) := by
  decide

/-- C2 counterexample: on an endpoint that always answers 503 the call does
make 5 attempts, but it does not fail with the exhausted error
("Gemini API call failed after multiple retries."); it fails with the
status-carrying error of the last attempt. -/
theorem c2_counterexample :
    (callGeminiApi (some "key") (fun _ => .httpError 503 "Service Unavailable")).attempts = 5 ∧
    (callGeminiApi (some "key") (fun _ => .httpError 503 "Service Unavailable")).result ≠
      Except.error GeminiError.exhausted ∧
    (callGeminiApi (some "key") (fun _ => .httpError 503 "Service Unavailable")).result =
      Except.error (GeminiError.apiError 503 "Service Unavailable") := by
  decide

/-- C2 (amended): when every one of the 5 attempts fails with a retryable
condition, the call makes exactly 5 attempts and then fails with the
status/message-carrying `GenerationFailed` error of the last attempt; the
`GenerationExhausted` fall-through after the loop is never reached. -/
theorem c2_all_retryable_five_attempts (ep : Nat → AttemptOutcome) (k : String) (hk : k ≠ "")
    (hr : ∀ i, i < MAX_RETRIES → retryableOutcome (ep i) = true) :
    (callGeminiApi (some k) ep).attempts = 5 ∧
    (callGeminiApi (some k) ep).result ≠ Except.error GeminiError.exhausted ∧
    ((∃ s m, ep 4 = .httpError s m ∧
        (callGeminiApi (some k) ep).result = Except.error (GeminiError.apiError s m)) ∨
     (∃ m, ep 4 = .networkError m ∧
        (callGeminiApi (some k) ep).result = Except.error (GeminiError.network m))) := by
  have hcall : callGeminiApi (some k) ep = runAttempts ep 5 0 0 0 := by
    simp [callGeminiApi, hk, MAX_RETRIES]
  have hchain := runAttempts_four_retries ep (fun i hi => hr i (by omega))
  have hr4 := hr 4 (by norm_num [MAX_RETRIES])
  cases h4 : ep 4 with
  | httpSuccess text => rw [h4] at hr4; simp [retryableOutcome] at hr4
  | httpError s m =>
    have hs : 500 ≤ s := by rw [h4] at hr4; simpa [retryableOutcome] using hr4
    have hfin : runAttempts ep 1 4 4 15000 =
        { result := .error (.apiError s m), attempts := 5, totalDelayMs := 15000 } := by
      simp [runAttempts, h4, MAX_RETRIES]
    rw [hcall, hchain, hfin]
    exact ⟨rfl, by simp, Or.inl ⟨s, m, rfl, rfl⟩⟩
  | networkError m =>
    have hfin : runAttempts ep 1 4 4 15000 =
        { result := .error (.network m), attempts := 5, totalDelayMs := 15000 } := by
      simp [runAttempts, h4, MAX_RETRIES]
    rw [hcall, hchain, hfin]
    exact ⟨rfl, by simp, Or.inr ⟨m, rfl, rfl⟩⟩

/-- C2 witness: the amended statement at a concrete always-503 endpoint. -/
theorem c2_all_retryable_five_attempts_witness :
    (callGeminiApi (some "key") (fun _ => .httpError 503 "oops")).attempts = 5 ∧
    (callGeminiApi (some "key") (fun _ => .httpError 503 "oops")).result ≠
      Except.error GeminiError.exhausted ∧
    ((∃ s m, (fun _ : Nat => AttemptOutcome.httpError 503 "oops") 4 = .httpError s m ∧
        (callGeminiApi (some "key") (fun _ => .httpError 503 "oops")).result =
          Except.error (GeminiError.apiError s m)) ∨
     (∃ m, (fun _ : Nat => AttemptOutcome.httpError 503 "oops") 4 = .networkError m ∧
        (callGeminiApi (some "key") (fun _ => .httpError 503 "oops")).result =
          Except.error (GeminiError.network m))) :=
  c2_all_retryable_five_attempts (fun _ => .httpError 503 "oops") "key"
    (by decide) (by decide)

/-- C3: the client makes at most 5 attempts; an endpoint that fails
retryably on attempt indices 0-3 and succeeds with non-empty text on the
fifth attempt yields that text after exactly 5 attempts and
1+2+4+8 = 15 seconds of accumulated backoff delay (the successful last
attempt adds no wait). -/
theorem c3_backoff_and_success (ep : Nat → AttemptOutcome) (k t : String) (hk : k ≠ "")
    (hretry : ∀ i, i < MAX_RETRIES - 1 → retryableOutcome (ep i) = true)
    (hsucc : ep 4 = .httpSuccess (some t)) (ht : t ≠ "") :
    callGeminiApi (some k) ep =
      { result := .ok t, attempts := 5, totalDelayMs := (1 + 2 + 4 + 8) * 1000 } ∧
    (∀ key ep2, (callGeminiApi key ep2).attempts ≤ MAX_RETRIES) := by
  constructor
  · have hcall : callGeminiApi (some k) ep = runAttempts ep 5 0 0 0 := by
      simp [callGeminiApi, hk, MAX_RETRIES]
    have hchain := runAttempts_four_retries ep hretry
    have hfin : runAttempts ep 1 4 4 15000 =
        { result := .ok t, attempts := 5, totalDelayMs := 15000 } := by
      simp [runAttempts, hsucc, ht]
    rw [hcall, hchain, hfin]
  · intro key ep2
    cases key with
    | none => simp [callGeminiApi, MAX_RETRIES]
    | some k2 =>
      by_cases h2 : k2 = ""
      · simp [callGeminiApi, h2, MAX_RETRIES]
      · simp only [callGeminiApi, h2, if_false]
        have := runAttempts_attempts_le ep2 MAX_RETRIES 0 0 0
        omega

/-- C3 witness: the retry-then-succeed scenario at a concrete endpoint. -/
theorem c3_backoff_and_success_witness :
    callGeminiApi (some "key")
        (fun i => if i < 4 then .httpError 500 "boom" else .httpSuccess (some "REPORT")) =
      { result := .ok "REPORT", attempts := 5, totalDelayMs := (1 + 2 + 4 + 8) * 1000 } ∧
    (∀ key ep2, (callGeminiApi key ep2).attempts ≤ MAX_RETRIES) :=
  c3_backoff_and_success
    (fun i => if i < 4 then .httpError 500 "boom" else .httpSuccess (some "REPORT"))
    "key" "REPORT" (by decide) (by decide) (by norm_num) (by decide)

/-- C6: whenever the client returns successfully, the returned generated
text is non-empty — the guard `if (!report) throw` (line 84) makes an
absent or empty generated-text field a failure of that attempt, never a
returned result. -/
theorem c6_success_text_nonempty (apiKey : Option String) (ep : Nat → AttemptOutcome)
    (t : String) (h : (callGeminiApi apiKey ep).result = Except.ok t) : t ≠ "" := by
  cases apiKey with
  | none => simp [callGeminiApi] at h
  | some k =>
    by_cases hk : k = ""
    · simp [callGeminiApi, hk] at h
    · simp only [callGeminiApi, if_neg hk] at h
      exact runAttempts_ok_ne_empty ep MAX_RETRIES 0 0 0 t h

/-- C6 witness: a concrete successful call returns non-empty text. -/
theorem c6_success_text_nonempty_witness :
    (callGeminiApi (some "key") (fun _ => .httpSuccess (some "REPORT"))).result =
      Except.ok "REPORT" ∧ "REPORT" ≠ "" :=
  ⟨by decide,
   c6_success_text_nonempty (some "key") (fun _ => .httpSuccess (some "REPORT")) "REPORT"
     (by decide)⟩

/-- C7: with no configured credential the client fails with the missing-key
error before any fetch (0 attempts, 0 delay) — also when the variable holds
the falsy empty string — and the analyze handler turns that failure into
the generic 500 response, not a 400. -/
theorem c7_missing_credential (ep : Nat → AttemptOutcome) (file : UploadedFile)
    (p : String) (hp : p ≠ "") (db : Except Unit DbRow) :
    callGeminiApi none ep =
      { result := .error .missingApiKey, attempts := 0, totalDelayMs := 0 } ∧
    callGeminiApi (some "") ep =
      { result := .error .missingApiKey, attempts := 0, totalDelayMs := 0 } ∧
    analyzeHandler (some file) (some p) (callGeminiApi none ep).result db =
      { status := 500, body := .err genericAnalysisError, cleanupCalls := 1 } := by
  refine ⟨rfl, rfl, ?_⟩
  simp [analyzeHandler, hp, callGeminiApi]

/-- A concrete uploaded file used to instantiate the pipeline theorems. -/
def demoFile : UploadedFile :=
  { path := "uploads/x", originalname := "a.js", mimetype := "text/javascript", size := 10 }

/-- A concrete inserted row used to instantiate the pipeline theorems. -/
def demoRow : DbRow := { id := 1, filename := "a.js", created_at := 0 }

/-- C7 witness: the missing-credential behaviour at concrete inputs. -/
theorem c7_missing_credential_witness :
    callGeminiApi none (fun _ => .httpSuccess (some "R")) =
      { result := .error .missingApiKey, attempts := 0, totalDelayMs := 0 } ∧
    callGeminiApi (some "") (fun _ => .httpSuccess (some "R")) =
      { result := .error .missingApiKey, attempts := 0, totalDelayMs := 0 } ∧
    analyzeHandler (some demoFile) (some "Review this")
      (callGeminiApi none (fun _ => .httpSuccess (some "R"))).result (Except.ok demoRow) =
      { status := 500, body := .err genericAnalysisError, cleanupCalls := 1 } :=
  c7_missing_credential (fun _ => .httpSuccess (some "R")) demoFile
    "Review this" (by decide) (Except.ok demoRow)

/-- C8: after request-shape validation passed (a file and a non-empty
prompt are present), any generation or persistence failure is caught by
the catch at line 138 and becomes exactly the generic 500 body, with no
internal detail and no success report. -/
theorem c8_generic_500 (file : UploadedFile) (p : String) (hp : p ≠ "")
    (gemini : Except GeminiError String) (db : Except Unit DbRow)
    (hfail : (∃ e, gemini = .error e) ∨ (∃ u, db = .error u)) :
    analyzeHandler (some file) (some p) gemini db =
      { status := 500, body := .err genericAnalysisError, cleanupCalls := 1 } := by
  rcases hfail with ⟨e, he⟩ | ⟨u, hu⟩
  · subst he
    simp [analyzeHandler, hp]
  · subst hu
    cases gemini with
    | error e => simp [analyzeHandler, hp]
    | ok r => simp [analyzeHandler, hp]

/-- C8 witness: a persistence failure after a successful generation yields
the generic 500. -/
theorem c8_generic_500_witness :
    analyzeHandler (some demoFile) (some "Review this") (Except.ok "REPORT") (Except.error ()) =
      { status := 500, body := .err genericAnalysisError, cleanupCalls := 1 } :=
  c8_generic_500 demoFile "Review this" (by decide) (Except.ok "REPORT") (Except.error ())
    (Or.inr ⟨(), rfl⟩)

/-- C4: the upload gate accepts a file iff its size is at most 5 MiB and
either its declared MIME type or its lowercased filename extension is
allow-listed; an oversize file fails as too large regardless of type, a
type mismatch within the size limit fails as an invalid type, and any gate
failure makes the route reject with 400 before the analysis handler (and
hence any later stage) runs. -/
theorem c4_upload_gate (mime name : String) (size : Nat) :
    (uploadGate mime name size = .ok () ↔
      size ≤ MAX_FILE_SIZE ∧
        (mime ∈ allowedMimeTypes ∨ toLowerCase (extname name) ∈ allowedExtensions)) ∧
    (MAX_FILE_SIZE < size → uploadGate mime name size = .error .fileTooLarge) ∧
    (size ≤ MAX_FILE_SIZE → mime ∉ allowedMimeTypes →
      toLowerCase (extname name) ∉ allowedExtensions →
      uploadGate mime name size = .error (.invalidFileType invalidTypeMsg)) ∧
    (∀ e p g d, uploadGate mime name size = .error e →
      ∃ msg, analyzeRoute (some ⟨name, mime, size⟩) p g d = .rejected 400 msg) := by
  refine ⟨?_, ?_, ?_, ?_⟩
  · constructor
    · intro h
      by_cases hs : MAX_FILE_SIZE < size
      · simp [uploadGate, hs] at h
      · by_cases hc : mime ∈ allowedMimeTypes ∨ toLowerCase (extname name) ∈ allowedExtensions
        · exact ⟨by omega, hc⟩
        · simp [uploadGate, fileFilter, hs, hc] at h
    · rintro ⟨hs, hc⟩
      simp [uploadGate, fileFilter, hc, Nat.not_lt.mpr hs]
  · intro hs
    simp [uploadGate, hs]
  · intro hs h1 h2
    have hs2 : ¬ MAX_FILE_SIZE < size := by omega
    have hc : ¬ (mime ∈ allowedMimeTypes ∨ toLowerCase (extname name) ∈ allowedExtensions) := by
      tauto
    simp [uploadGate, fileFilter, hs2, hc]
  · intro e p g d h
    cases e with
    | fileTooLarge =>
      exact ⟨"File upload error: File too large", by simp [analyzeRoute, h]⟩
    | invalidFileType msg =>
      exact ⟨msg, by simp [analyzeRoute, h]⟩

/-- C4 witness: the gate at concrete files — oversize rejection, invalid
type rejection, and an accept through the MIME list. -/
theorem c4_upload_gate_witness :
    uploadGate "application/pdf" "doc.pdf" (MAX_FILE_SIZE + 1) = .error .fileTooLarge ∧
    uploadGate "application/pdf" "doc.pdf" 10 = .error (.invalidFileType invalidTypeMsg) ∧
    uploadGate "text/plain" "notes.bin" 10 = .ok () :=
  ⟨(c4_upload_gate "application/pdf" "doc.pdf" (MAX_FILE_SIZE + 1)).2.1 (by omega),
   (c4_upload_gate "application/pdf" "doc.pdf" 10).2.2.1
     (by norm_num [MAX_FILE_SIZE]) (by decide) (by decide),
   (c4_upload_gate "text/plain" "notes.bin" 10).1.mpr
     ⟨by norm_num [MAX_FILE_SIZE], Or.inl (by decide)⟩⟩

/-- C10: the generic MIME type application/octet-stream is a member of the
MIME allow-list, so the filter accepts any file declaring it, whatever the
filename extension; within the size limit such a file passes the gate. -/
theorem c10_octet_stream_accepted (name : String) (size : Nat)
    (hsize : size ≤ MAX_FILE_SIZE) :
    fileFilter "application/octet-stream" name = .ok true ∧
    uploadGate "application/octet-stream" name size = .ok () := by
  have hm : "application/octet-stream" ∈ allowedMimeTypes := by decide
  constructor
  · simp [fileFilter, hm]
  · simp [uploadGate, fileFilter, hm, Nat.not_lt.mpr hsize]

/-- C10 witness: a binary file with a non-allow-listed extension passes by
declaring the generic MIME type. -/
theorem c10_octet_stream_accepted_witness :
    fileFilter "application/octet-stream" "malware.exe" = .ok true ∧
    uploadGate "application/octet-stream" "malware.exe" 3 = .ok () :=
  c10_octet_stream_accepted "malware.exe" 3 (by norm_num [MAX_FILE_SIZE])

/-- C5: on every exit path of the analyze handler the `finally` block
releases the transient artifact exactly once (and zero times when no file
was stored); `deleteTempFile` never propagates an error, is a no-op on an
already-absent file, is idempotent, and merely logs an unlink failure. -/
theorem c5_cleanup_exactly_once (file : Option UploadedFile) (p : Option String)
    (g : Except GeminiError String) (db : Except Unit DbRow) :
    ((analyzeHandler file p g db).cleanupCalls = if file.isSome then 1 else 0) ∧
    (∀ fs path u, (deleteTempFile fs path u).thrown = false) ∧
    (∀ fs path u, path ∉ fs.files →
      deleteTempFile fs (some path) u = { fs := fs, thrown := false, loggedError := false }) ∧
    (∀ fs path,
      deleteTempFile (deleteTempFile fs (some path) false).fs (some path) false =
        { fs := (deleteTempFile fs (some path) false).fs, thrown := false,
          loggedError := false }) ∧
    (∀ fs path u, path ∈ fs.files → path ≠ "" →
      (deleteTempFile fs (some path) u).loggedError = u ∧
      (deleteTempFile fs (some path) u).thrown = false) := by
  refine ⟨?_, ?_, ?_, ?_, ?_⟩
  · cases file with
    | none => rfl
    | some f =>
      cases p with
      | none => rfl
      | some s =>
        by_cases hs : s = ""
        · simp [analyzeHandler, hs]
        · cases g with
          | error e => simp [analyzeHandler, hs]
          | ok r =>
            cases db with
            | error u => simp [analyzeHandler, hs]
            | ok row => simp [analyzeHandler, hs]
  · intro fs path u
    cases path with
    | none => rfl
    | some q =>
      simp only [deleteTempFile]
      repeat' split
      all_goals rfl
  · intro fs path u hmem
    by_cases hq : path = ""
    · simp [deleteTempFile, hq]
    · simp [deleteTempFile, hq, hmem]
  · intro fs path
    by_cases hq : path = ""
    · simp [deleteTempFile, hq]
    · by_cases hmem : path ∈ fs.files
      · have h1 : deleteTempFile fs (some path) false =
            { fs := { files := fs.files.filter (fun q => q ≠ path) },
              thrown := false, loggedError := false } := by
          simp [deleteTempFile, hq, hmem]
        have h2 : path ∉ fs.files.filter (fun q => q ≠ path) := by
          simp [List.mem_filter]
        rw [h1]
        simp [deleteTempFile, hq, h2]
      · have h1 : deleteTempFile fs (some path) false =
            { fs := fs, thrown := false, loggedError := false } := by
          simp [deleteTempFile, hq, hmem]
        rw [h1]
        simp [deleteTempFile, hq, hmem]
  · intro fs path u hmem hq
    cases u <;> simp [deleteTempFile, hq, hmem]

/-- C5 witness: cleanup happens exactly once on a concrete successful run,
and releasing an absent file is a silent no-op. -/
theorem c5_cleanup_exactly_once_witness :
    (analyzeHandler (some demoFile) (some "Review this") (Except.ok "REPORT")
        (Except.ok demoRow)).cleanupCalls = 1 ∧
    deleteTempFile { files := ["uploads/other"] } (some "uploads/x") false =
      { fs := { files := ["uploads/other"] }, thrown := false, loggedError := false } :=
  ⟨by
    have h := (c5_cleanup_exactly_once (some demoFile) (some "Review this")
      (Except.ok "REPORT") (Except.ok demoRow)).1
    simpa using h,
   (c5_cleanup_exactly_once (some demoFile) (some "Review this")
      (Except.ok "REPORT") (Except.ok demoRow)).2.2.1
     { files := ["uploads/other"] } "uploads/x" false (by decide)⟩

/-- C9: deleting a nonexistent identifier produces a 404 and leaves the
store unchanged; deleting an existing identifier produces a 204 with an
empty body, removes all rows with that identifier, and a subsequent get of
the same identifier produces a 404 with no row. -/
theorem c9_delete_then_get (store : ReviewStore) (id : Nat) :
    ((∀ r ∈ store, r.id ≠ id) →
      deleteReportHandler store id =
        (store, { status := 404, body := some (notFoundMsg id) })) ∧
    ((∃ r ∈ store, r.id = id) →
      (deleteReportHandler store id).2 = { status := 204, body := none } ∧
      getReportHandler (deleteReportHandler store id).1 id = (404, none)) := by
  constructor
  · intro hall
    have h1 : store.filter (fun r => r.id = id) = [] := by
      rw [List.filter_eq_nil_iff]
      intro a ha
      simpa using hall a ha
    have h2 : store.filter (fun r => r.id ≠ id) = store := by
      rw [List.filter_eq_self]
      intro a ha
      simpa using hall a ha
    simp only [deleteReportHandler, dbDeleteReviews, h1, h2, List.length_nil, if_pos rfl,
      if_true]
  · rintro ⟨r, hr, hid⟩
    have h1 : (store.filter (fun x => x.id = id)).length ≠ 0 := by
      intro h0
      have hnil : store.filter (fun x => x.id = id) = [] := List.length_eq_zero.mp h0
      have hmem : r ∈ store.filter (fun x => x.id = id) := by
        rw [List.mem_filter]
        exact ⟨hr, by simpa using hid⟩
      rw [hnil] at hmem
      simp at hmem
    have hdel : deleteReportHandler store id =
        (store.filter (fun x => x.id ≠ id), { status := 204, body := none }) := by
      simp [deleteReportHandler, dbDeleteReviews, h1]
    have hfind : (store.filter (fun x => x.id ≠ id)).find? (fun x => x.id = id) = none := by
      rw [List.find?_eq_none]
      intro x hx
      rw [List.mem_filter] at hx
      simpa using hx.2
    rw [hdel]
    refine ⟨rfl, ?_⟩
    show getReportHandler (store.filter (fun x => x.id ≠ id)) id = (404, none)
    unfold getReportHandler
    rw [hfind]

/-- A one-row demo store for the report handlers. -/
def demoStore : ReviewStore :=
  [{ id := 1, filename := "a.js", review_prompt := "Review this", report := "REPORT",
     created_at := 100 }]

/-- C9 witness: the delete/get behaviour on a concrete one-row store, for a
missing identifier and for the present one. -/
theorem c9_delete_then_get_witness :
    deleteReportHandler demoStore 2 =
      (demoStore, { status := 404, body := some (notFoundMsg 2) }) ∧
    (deleteReportHandler demoStore 1).2 = { status := 204, body := none } ∧
    getReportHandler (deleteReportHandler demoStore 1).1 1 = (404, none) :=
  ⟨(c9_delete_then_get demoStore 2).1 (by decide),
   (c9_delete_then_get demoStore 1).2
     ⟨{ id := 1, filename := "a.js", review_prompt := "Review this", report := "REPORT",
        created_at := 100 }, by decide, rfl⟩⟩

end AICodeReviewer
